import Mathlib

/-!
Shallow embedding of `src/app.py` (a Flask service recommending medical
clinics from free-text symptoms via a Vertex AI model).

The embedding covers:
* a JSON value type `JVal` and a parser `json_loads` modelling Python's
  `json.loads` (used both by Flask's `request.get_json()` and by the
  handler's parsing of the model output);
* Python string helpers (`pyStrip` for `str.strip()`);
* the global lifecycle state (`model`, `model_initialization_error`)
  as `ServerState`;
* the `/ready` handler `readiness_check` (app.py lines 68-83);
* the `/api/recommend` handler `recommend_clinic` (app.py lines 85-153),
  parameterised by a stub for `model.generate_content`, and returning the
  HTTP response together with a flag recording whether the model was
  invoked;
* the background initialiser `initialize_vertex_ai` (app.py lines 28-58)
  as a small-step transition relation `initialize_vertex_ai_step`,
  where each statement inside the `try:` block may either succeed or
  raise (the `except Exception` clause then records the error).
-/

/-- JSON values as produced by Python's `json.loads`.  Numbers are kept as
a normalised decimal mantissa/exponent pair `jnum m e` denoting `m * 10^e`
(Python's int/float distinction is not modelled; `==` in Python identifies
`1`, `1.0` and `1e0`, as does the normalisation here).  Objects are
insertion-ordered association lists with unique keys, mirroring Python
dicts built by the JSON decoder (duplicate keys: last value wins, first
position kept). -/
inductive JVal where
  | jnull : JVal
  | jbool (b : Bool) : JVal
  | jnum (m : Int) (e : Int) : JVal
  | jstr (s : String) : JVal
  | jarr (elems : List JVal) : JVal
  | jobj (fields : List (String × JVal)) : JVal

mutual

/-- Structural equality of JSON values, playing the role of Python's `==`
on decoded JSON data (used by the `in` membership tests in the source). -/
def JVal.beq : JVal → JVal → Bool
  | .jnull, .jnull => true
  | .jbool a, .jbool b => a == b
  | .jnum m1 e1, .jnum m2 e2 => m1 == m2 && e1 == e2
  | .jstr a, .jstr b => a == b
  | .jarr xs, .jarr ys => JVal.beqList xs ys
  | .jobj xs, .jobj ys => JVal.beqFields xs ys
  | _, _ => false

/-- Elementwise `JVal.beq` on lists. -/
def JVal.beqList : List JVal → List JVal → Bool
  | [], [] => true
  | x :: xs, y :: ys => JVal.beq x y && JVal.beqList xs ys
  | _, _ => false

/-- Elementwise `JVal.beq` on association lists. -/
def JVal.beqFields : List (String × JVal) → List (String × JVal) → Bool
  | [], [] => true
  | (k1, v1) :: xs, (k2, v2) :: ys => k1 == k2 && JVal.beq v1 v2 && JVal.beqFields xs ys
  | _, _ => false

end

instance : BEq JVal := ⟨JVal.beq⟩

/-- Insert a key/value pair into an insertion-ordered association list the
way Python dicts do: an existing key keeps its position and gets the new
value, a new key is appended at the end. -/
def objInsert (k : String) (v : JVal) : List (String × JVal) → List (String × JVal)
  | [] => [(k, v)]
  | (k', v') :: rest => if k' = k then (k', v) :: rest else (k', v') :: objInsert k v rest

/-- JSON whitespace as accepted between tokens by Python's `json` module. -/
def isJsonWs (c : Char) : Bool :=
  c = ' ' || c = '\t' || c = '\n' || c = '\r'

/-- Drop leading JSON whitespace. -/
def skipWs : List Char → List Char
  | [] => []
  | c :: cs => if isJsonWs c then skipWs cs else c :: cs

/-- Value of a hexadecimal digit, if the character is one. -/
def hexVal (c : Char) : Option Nat :=
  if '0' ≤ c ∧ c ≤ '9' then some (c.toNat - '0'.toNat)
  else if 'a' ≤ c ∧ c ≤ 'f' then some (c.toNat - 'a'.toNat + 10)
  else if 'A' ≤ c ∧ c ≤ 'F' then some (c.toNat - 'A'.toNat + 10)
  else none

/-- The left curly-brace character (kept out of literals for hygiene). -/
def braceL : Char := Char.ofNat 123

/-- The right curly-brace character. -/
def braceR : Char := Char.ofNat 125

/-- Parse the body of a JSON string after the opening quote, accumulating
decoded characters in reverse.  Mirrors Python's strict JSON string
decoding: raw control characters below 0x20 are rejected, the standard
escapes and `\uXXXX` are decoded, and surrogate pairs are combined.
(Lone surrogates, which Python would keep in the string, are outside
Lean's `Char` range and decode to the NUL placeholder of `Char.ofNat`;
no claim depends on them.) -/
def parseStringBodyAux : Nat → List Char → List Char → Option (String × List Char)
  | 0, _, _ => none
  | _ + 1, [], _ => none
  | fuel + 1, c :: rest, acc =>
    if c = '"' then some (⟨acc.reverse⟩, rest)
    else if c = '\\' then
      match rest with
      | [] => none
      | e :: rest2 =>
        if e = '"' then parseStringBodyAux fuel rest2 ('"' :: acc)
        else if e = '\\' then parseStringBodyAux fuel rest2 ('\\' :: acc)
        else if e = '/' then parseStringBodyAux fuel rest2 ('/' :: acc)
        else if e = 'b' then parseStringBodyAux fuel rest2 ('\x08' :: acc)
        else if e = 'f' then parseStringBodyAux fuel rest2 ('\x0c' :: acc)
        else if e = 'n' then parseStringBodyAux fuel rest2 ('\n' :: acc)
        else if e = 'r' then parseStringBodyAux fuel rest2 ('\r' :: acc)
        else if e = 't' then parseStringBodyAux fuel rest2 ('\t' :: acc)
        else if e = 'u' then
          match rest2 with
          | h1 :: h2 :: h3 :: h4 :: rest3 =>
            match hexVal h1, hexVal h2, hexVal h3, hexVal h4 with
            | some a, some b, some c1, some d =>
              let code := ((a * 16 + b) * 16 + c1) * 16 + d
              if 0xD800 ≤ code ∧ code ≤ 0xDBFF then
                match rest3 with
                | s1 :: s2 :: g1 :: g2 :: g3 :: g4 :: rest4 =>
                  if s1 = '\\' ∧ s2 = 'u' then
                    match hexVal g1, hexVal g2, hexVal g3, hexVal g4 with
                    | some a2, some b2, some c2, some d2 =>
                      let code2 := ((a2 * 16 + b2) * 16 + c2) * 16 + d2
                      if 0xDC00 ≤ code2 ∧ code2 ≤ 0xDFFF then
                        parseStringBodyAux fuel rest4
                          (Char.ofNat (0x10000 + (code - 0xD800) * 0x400 + (code2 - 0xDC00)) :: acc)
                      else
                        parseStringBodyAux fuel rest4 (Char.ofNat code2 :: Char.ofNat code :: acc)
                    | _, _, _, _ => none
                  else parseStringBodyAux fuel rest3 (Char.ofNat code :: acc)
                | _ => parseStringBodyAux fuel rest3 (Char.ofNat code :: acc)
              else parseStringBodyAux fuel rest3 (Char.ofNat code :: acc)
            | _, _, _, _ => none
          | _ => none
        else none
    else if c.toNat < 0x20 then none
    else parseStringBodyAux fuel rest (c :: acc)

/-- Parse the body of a JSON string (see `parseStringBodyAux`); every step
of the fuelled recursion consumes at least one character, so `cs.length`
fuel can never run out. -/
def parseStringBody (cs acc : List Char) : Option (String × List Char) :=
  parseStringBodyAux cs.length cs acc

/-- Take a maximal run of decimal digits from the front of the list. -/
def takeDigits : List Char → List Char × List Char
  | [] => ([], [])
  | c :: cs =>
    if c.isDigit then
      let (d, r) := takeDigits cs
      (c :: d, r)
    else ([], c :: cs)

/-- Numeric value of a digit run. -/
def digitsVal (ds : List Char) : Nat :=
  ds.foldl (fun a c => a * 10 + (c.toNat - '0'.toNat)) 0

/-- Strip factors of ten from the mantissa into the exponent, so that
equal decimal values get equal representations. -/
def stripTens : Nat → Int → Int → Int × Int
  | 0, m, e => (m, e)
  | fuel + 1, m, e => if m ≠ 0 ∧ m % 10 = 0 then stripTens fuel (m / 10) (e + 1) else (m, e)

/-- Parse a JSON number (sign, integer part without leading zeros,
optional fraction, optional exponent) into a normalised `jnum`. -/
def parseNumber (cs : List Char) : Option (JVal × List Char) :=
  let (neg, cs1) :=
    match cs with
    | c :: r => if c = '-' then (true, r) else (false, cs)
    | [] => (false, ([] : List Char))
  match cs1 with
  | [] => none
  | c :: r =>
    if ¬ c.isDigit then none
    else
      let (intDigits, rest1) : List Char × List Char :=
        if c = '0' then (['0'], r) else takeDigits (c :: r)
      let (fracDigits, rest2) : List Char × List Char :=
        match rest1 with
        | '.' :: r2 => takeDigits r2
        | _ => ([], rest1)
      if rest1 ≠ rest2 ∧ fracDigits = [] then none
      else
        let afterFrac := if fracDigits = [] then rest1 else rest2
        let expPart : Option (Int × List Char) :=
          match afterFrac with
          | c2 :: r3 =>
            if c2 = 'e' ∨ c2 = 'E' then
              let (esign, r4) :=
                match r3 with
                | c3 :: r5 =>
                  if c3 = '-' then ((-1 : Int), r5)
                  else if c3 = '+' then ((1 : Int), r5) else ((1 : Int), r3)
                | [] => ((1 : Int), ([] : List Char))
              match takeDigits r4 with
              | ([], _) => none
              | (ds, r6) => some (esign * (digitsVal ds : Int), r6)
            else some (0, afterFrac)
          | [] => some (0, afterFrac)
        match expPart with
        | none => none
        | some (expVal, rest) =>
          let mant : Nat := digitsVal (intDigits ++ fracDigits)
          let e0 : Int := expVal - (fracDigits.length : Int)
          let (m1, e1) := stripTens mant (mant : Int) e0
          let m2 : Int := if neg then -m1 else m1
          if m2 = 0 then some (JVal.jnum 0 0, rest) else some (JVal.jnum m2 e1, rest)

mutual

/-- Parse one JSON value (fuelled recursion; `json_loads` supplies enough
fuel that exhaustion is unreachable for its inputs). -/
def parseValue : Nat → List Char → Option (JVal × List Char)
  | 0, _ => none
  | _ + 1, [] => none
  | fuel + 1, c :: rest =>
    if c = 'n' then
      match rest with
      | 'u' :: 'l' :: 'l' :: r => some (JVal.jnull, r)
      | _ => none
    else if c = 't' then
      match rest with
      | 'r' :: 'u' :: 'e' :: r => some (JVal.jbool true, r)
      | _ => none
    else if c = 'f' then
      match rest with
      | 'a' :: 'l' :: 's' :: 'e' :: r => some (JVal.jbool false, r)
      | _ => none
    else if c = '"' then
      match parseStringBody rest [] with
      | some (s, r) => some (JVal.jstr s, r)
      | none => none
    else if c = '[' then
      match skipWs rest with
      | ']' :: r => some (JVal.jarr [], r)
      | r => parseArrayElems fuel r []
    else if c = braceL then
      match skipWs rest with
      | c2 :: r =>
        if c2 = braceR then some (JVal.jobj [], r)
        else parseObjElems fuel (c2 :: r) []
      | [] => none
    else if c = '-' ∨ c.isDigit then parseNumber (c :: rest)
    else none

/-- Parse the elements of a non-empty JSON array, accumulating in reverse. -/
def parseArrayElems : Nat → List Char → List JVal → Option (JVal × List Char)
  | 0, _, _ => none
  | fuel + 1, cs, acc =>
    match parseValue fuel (skipWs cs) with
    | none => none
    | some (v, r) =>
      match skipWs r with
      | ']' :: r2 => some (JVal.jarr (v :: acc).reverse, r2)
      | ',' :: r2 => parseArrayElems fuel r2 (v :: acc)
      | _ => none

/-- Parse the members of a non-empty JSON object, accumulating into an
insertion-ordered association list via `objInsert` (Python dict
semantics for duplicate keys). -/
def parseObjElems : Nat → List Char → List (String × JVal) → Option (JVal × List Char)
  | 0, _, _ => none
  | fuel + 1, cs, acc =>
    match skipWs cs with
    | '"' :: r =>
      match parseStringBody r [] with
      | none => none
      | some (k, r1) =>
        match skipWs r1 with
        | ':' :: r2 =>
          match parseValue fuel (skipWs r2) with
          | none => none
          | some (v, r3) =>
            let acc' := objInsert k v acc
            match skipWs r3 with
            | c :: r4 =>
              if c = braceR then some (JVal.jobj acc', r4)
              else if c = ',' then parseObjElems fuel r4 acc'
              else none
            | [] => none
        | _ => none
    | _ => none

end

/-- Model of Python's `json.loads` (as used by Flask's `request.get_json()`
at app.py line 99 and by the handler at line 143): parse one JSON document,
allowing only whitespace around it; any violation raises
`json.JSONDecodeError`, modelled as `none`. -/
def json_loads (s : String) : Option JVal :=
  match parseValue (2 * s.length + 2) (skipWs s.toList) with
  | some (v, rest) => if skipWs rest = [] then some v else none
  | none => none

/-- Whitespace stripped by Python's `str.strip()` with no argument
(characters for which `str.isspace()` holds). -/
def isPySpace (c : Char) : Bool :=
  let n := c.toNat
  (9 ≤ n && n ≤ 13) || n = 32 || (28 ≤ n && n ≤ 31) || n = 0x85 || n = 0xa0 ||
  n = 0x1680 || (0x2000 ≤ n && n ≤ 0x200a) || n = 0x2028 || n = 0x2029 ||
  n = 0x202f || n = 0x205f || n = 0x3000

/-- Model of Python's `str.strip()`: drop leading and trailing whitespace.
`String.length` of the result matches Python's `len`, both counting
code points. -/
def pyStrip (s : String) : String :=
  ⟨((s.toList.dropWhile isPySpace).reverse.dropWhile isPySpace).reverse⟩

/-- Substring test, modelling Python's `needle in haystack` on strings. -/
def listContainsSub (needle hay : List Char) : Bool :=
  match hay with
  | [] => needle.isEmpty
  | h :: t => needle.isPrefixOf (h :: t) || listContainsSub needle t

/-- The module-level mutable globals of app.py (lines 17-19): the loaded
model handle (`model`, represented by its model-name string; `None` ↦
`none`) and the recorded initialization exception
(`model_initialization_error`, represented by its message). -/
structure ServerState where
  model : Option String
  model_initialization_error : Option String
deriving DecidableEq

/-- The lifecycle states named by the spec, as far as the globals can
distinguish them: `notReady` covers both `Uninitialized` and
`Initializing` (globals both `None`), `ready` is "model handle set",
`failed` is "no handle, error recorded". -/
inductive LState where
  | notReady : LState
  | ready : LState
  | failed (reason : String) : LState
deriving DecidableEq

/-- The lifecycle state the code's own reading order derives from the
globals: the model handle is consulted first, the error only while the
handle is still `None` (app.py lines 75-83 and 90). -/
def lstateOf (st : ServerState) : LState :=
  match st.model with
  | some _ => .ready
  | none =>
    match st.model_initialization_error with
    | some e => .failed e
    | none => .notReady

/-- The `/ready` endpoint `readiness_check` (app.py lines 68-83): a pure
read of the globals under the lock, returning (plain-text body aside)
`200` when the model is loaded, `500` with the failure reason when
initialization failed, `503` while still initializing.  The handler
mutates nothing, which the embedding reflects by returning only the
response. -/
def readiness_check (st : ServerState) : Nat × String :=
  match st.model with
  | some _ => (200, "OK")
  | none =>
    match st.model_initialization_error with
    | some e => (500, "Initialization failed: " ++ e)
    | none => (503, "Model is not ready yet.")

/-- The fixed clinic catalog `CLINICS_LIST` (app.py lines 22-25). -/
def CLINICS_LIST : List String :=
  ["الباطنة-والجهاز-الهضمي-والكبد", "مسالك", "باطنة-عامة", "غدد-صماء-وسكر",
   "القلب-والإيكو", "السونار-والدوبلكس", "جراحة-التجميل", "عظام", "جلدية-وليزر"]

/-- `CLINICS_STRING` (app.py line 26): the catalog rendered as a
comma-separated list of quoted identifiers. -/
def CLINICS_STRING : String :=
  String.intercalate ", " (CLINICS_LIST.map (fun c => "\"" ++ c ++ "\""))

/-- The generation options passed to the model (app.py lines 107-111).
The temperature 0.7 is a float in the source; floats are not modelled, so
it is stored in tenths. -/
structure GenerationConfig where
  response_mime_type : String
  temperature_tenths : Nat
  max_output_tokens : Nat
deriving DecidableEq

/-- The concrete `generation_config` value built by the handler. -/
def generation_config : GenerationConfig :=
  { response_mime_type := "application/json", temperature_tenths := 7,
    max_output_tokens := 1024 }

/-- The prompt f-string (app.py lines 114-131), a deterministic function
of the fixed catalog and the raw symptom text. -/
def prompt (symptoms : String) : String :=
  "\n        أنت مساعد طبي خبير في مستشفى. مهمتك هي تحليل شكوى المريض واقتراح أفضل عيادتين بحد أقصى من قائمة العيادات المتاحة.\n" ++
  "        قائمة معرفات (IDs) العيادات المتاحة هي: [" ++ CLINICS_STRING ++ "]\n\n" ++
  "        شكوى المريض: \"" ++ symptoms ++ "\"\n\n" ++
  "        المطلوب منك:\n" ++
  "        1.  حدد العيادة الأساسية الأكثر احتمالاً بناءً على الأعراض.\n" ++
  "        2.  اشرح للمريض بلغة عربية بسيطة ومباشرة **لماذا** قمت بترشيح هذه العيادة.\n" ++
  "        3.  إذا كان هناك احتمال آخر قوي، حدد عيادة ثانوية واشرح سببها.\n" ++
  "        4.  إذا كانت الشكوى غامضة جداً (مثل \"أنا متعب\" أو \"مرهق\")، قم بترشيح \"باطنة-عامة\" واشرح أن الفحص العام هو أفضل نقطة بداية.\n" ++
  "        5.  ردك **يجب** أن يكون بصيغة JSON فقط، بدون أي نصوص أو علامات قبله أو بعده. يجب أن يكون على هذا الشكل بالضبط:\n" ++
  "        \x7b\n" ++
  "          \"recommendations\": [\n" ++
  "            \x7b \"id\": \"ID_العيادة_المقترحة\", \"reason\": \"شرح سبب الاختيار بوضوح.\" \x7d\n" ++
  "          ]\n" ++
  "        \x7d\n" ++
  "        "

/-- Outcome of one call to `model.generate_content` (the ModelClient
capability): either the returned response text, or a raised exception
(network/transport/credential failure), represented by its message. -/
inductive GenOutcome where
  | ok (text : String) : GenOutcome
  | raises (msg : String) : GenOutcome
deriving DecidableEq

/-- An inbound recommend request as the handler observes it through
Flask: whether the Content-Type declares JSON (`request.is_json`) and the
raw body text (parsed on demand by `request.get_json()`). -/
structure Request where
  is_json : Bool
  body : String
deriving DecidableEq

/-- A JSON error payload, as produced by `jsonify({"error": msg})`. -/
def jerror (msg : String) : JVal :=
  JVal.jobj [("error", JVal.jstr msg)]

/-- Message of the blanket `except Exception` handler (app.py line 153). -/
def genericErrorMsg : String := "An unexpected internal server error occurred."

/-- Lines 137-149 of app.py: handling of the text returned by the model.
Empty text (falsy in Python) is rejected first; then `json.loads`; then
the check `"recommendations" not in json_response or not
isinstance(json_response["recommendations"], list)`.  Python's `in` is
key membership on dicts, element membership on lists, substring test on
strings, and a `TypeError` (caught only by the blanket handler, hence the
generic message) on other values; subscripting a list or string with a
string key is likewise a `TypeError`.  Element shapes inside the
`recommendations` list are never inspected. -/
def handle_model_response (text : String) : Nat × JVal :=
  if text = "" then
    (500, jerror "The AI model returned an empty response.")
  else
    match json_loads text with
    | none => (500, jerror "The AI model returned a malformed response.")
    | some json_response =>
      match json_response with
      | JVal.jobj fields =>
        match fields.lookup "recommendations" with
        | none => (500, jerror "The AI model returned a malformed response.")
        | some v =>
          match v with
          | JVal.jarr _ => (200, json_response)
          | _ => (500, jerror "The AI model returned a malformed response.")
      | JVal.jarr elems =>
        if elems.contains (JVal.jstr "recommendations") then (500, jerror genericErrorMsg)
        else (500, jerror "The AI model returned a malformed response.")
      | JVal.jstr s =>
        if listContainsSub "recommendations".toList s.toList then (500, jerror genericErrorMsg)
        else (500, jerror "The AI model returned a malformed response.")
      | _ => (500, jerror genericErrorMsg)

/-- The `/api/recommend` endpoint `recommend_clinic` (app.py lines
85-153), parameterised by the model stub `gen` standing for
`model.generate_content`.  Returns the HTTP response (status code and
JSON body) paired with a flag recording whether the model was invoked.

Control flow mirrors the source: the not-ready gate under the lock
(lines 88-92); the Content-Type check (lines 95-96); `request.get_json()`
(line 99), whose parse failure raises a `BadRequest` that the handler's
own `except Exception` turns into a generic `500`; `data.get('symptoms')`
(line 100), an `AttributeError` (again generic `500`) when the decoded
body is not an object; the symptoms validation (lines 103-104); the model
call (line 134); and the response handling (lines 137-149). -/
def recommend_clinic (st : ServerState) (req : Request)
    (gen : String → GenerationConfig → GenOutcome) : (Nat × JVal) × Bool :=
  match st.model with
  | none =>
    let error_message :=
      match st.model_initialization_error with
      | some e => "AI model is not available. Error: " ++ e
      | none => "AI model is still initializing."
    ((503, jerror error_message), false)
  | some _ =>
    if req.is_json = false then
      ((400, jerror "Invalid request: Content-Type must be application/json."), false)
    else
      match json_loads req.body with
      | none => ((500, jerror genericErrorMsg), false)
      | some data =>
        match data with
        | JVal.jobj fields =>
          match fields.lookup "symptoms" with
          | some (JVal.jstr s) =>
            if (pyStrip s).length < 3 then
              ((400, jerror "Symptoms must be provided as a non-empty string."), false)
            else
              match gen (prompt s) generation_config with
              | .raises _ => ((500, jerror genericErrorMsg), true)
              | .ok text => (handle_model_response text, true)
          | _ => ((400, jerror "Symptoms must be provided as a non-empty string."), false)
        | _ => ((500, jerror genericErrorMsg), false)

/-- A state in which initialization has succeeded. -/
def readySt : ServerState := ⟨some "gemini-1.5-flash-001", none⟩

/-- A well-formed recommend request used by concrete runs. -/
def reqAbc : Request := ⟨true, "\x7b\"symptoms\": \"headache and nausea\"\x7d"⟩

/-- A model stub returning fixed text, ignoring prompt and options. -/
def genConst (t : String) : String → GenerationConfig → GenOutcome :=
  fun _ _ => .ok t

/-- Program points of the background thread running
`initialize_vertex_ai` (app.py lines 28-58): before the environment
read / `vertexai.init` call, after `vertexai.init`, after the
`GenerativeModel` constructor, after the locked store to `model`
(line 48), and finished (the function returned, normally or through its
`except` clause). -/
inductive IPc where
  | start : IPc
  | inited : IPc
  | loaded : IPc
  | stored : IPc
  | done : IPc
deriving DecidableEq

/-- State of the process as the initializer thread sees it: the thread's
program point plus the shared globals. -/
structure TState where
  pc : IPc
  g : ServerState
deriving DecidableEq

/-- The model name loaded at app.py line 44. -/
def modelName : String := "gemini-1.5-flash-001"

/-- Message of the `ValueError` raised when `GCP_PROJECT` is unset
(app.py line 39). -/
def cfgErrMsg : String := "GCP_PROJECT environment variable not set."

/-- One step of the `initialize_vertex_ai` thread (app.py lines 28-58),
parameterised by the `GCP_PROJECT` environment value.  Each statement
inside the `try:` block either succeeds or raises; a raise transfers
control to the `except Exception` clause (lines 52-54), which stores the
exception in `model_initialization_error` and ends the thread.  In
particular the success `print` at line 50 sits after the locked store of
`model` (line 48) but still inside the `try:`, so its failure records an
error while the handle stays set.  The globals at each program point are
exactly those real executions produce: the function runs once and nothing
else writes them. -/
inductive initialize_vertex_ai_step (env : Option String) : TState → TState → Prop
  | envMissing :
      env = none →
      initialize_vertex_ai_step env ⟨.start, ⟨none, none⟩⟩ ⟨.done, ⟨none, some cfgErrMsg⟩⟩
  | initOk (p : String) :
      env = some p →
      initialize_vertex_ai_step env ⟨.start, ⟨none, none⟩⟩ ⟨.inited, ⟨none, none⟩⟩
  | initFail (p e : String) :
      env = some p →
      initialize_vertex_ai_step env ⟨.start, ⟨none, none⟩⟩ ⟨.done, ⟨none, some e⟩⟩
  | loadOk :
      initialize_vertex_ai_step env ⟨.inited, ⟨none, none⟩⟩ ⟨.loaded, ⟨none, none⟩⟩
  | loadFail (e : String) :
      initialize_vertex_ai_step env ⟨.inited, ⟨none, none⟩⟩ ⟨.done, ⟨none, some e⟩⟩
  | store :
      initialize_vertex_ai_step env ⟨.loaded, ⟨none, none⟩⟩ ⟨.stored, ⟨some modelName, none⟩⟩
  | printOk :
      initialize_vertex_ai_step env ⟨.stored, ⟨some modelName, none⟩⟩
        ⟨.done, ⟨some modelName, none⟩⟩
  | printFail (e : String) :
      initialize_vertex_ai_step env ⟨.stored, ⟨some modelName, none⟩⟩
        ⟨.done, ⟨some modelName, some e⟩⟩

/-- The process state at startup: thread about to run, both globals
`None` (app.py lines 18-19, 57-58). -/
def initialState : TState := ⟨.start, ⟨none, none⟩⟩

/-- Zero or more initializer steps. -/
def initReaches (env : Option String) : TState → TState → Prop :=
  Relation.ReflTransGen (initialize_vertex_ai_step env)

/-- The spec's round-trip literal. -/
def specLiteral : String :=
  "\x7b\"recommendations\":[\x7b\"id\":\"general-medicine\",\"reason\":\"Vague fatigue warrants a general checkup first.\"\x7d]\x7d"

example : json_loads "null" = some JVal.jnull := by rfl
example : json_loads "  [1, 2]  " = some (JVal.jarr [JVal.jnum 1 0, JVal.jnum 2 0]) := by rfl
example : json_loads "not json" = none := by rfl
example : json_loads "" = none := by rfl
example : json_loads "\x7b\"foo\": []\x7d" = some (JVal.jobj [("foo", JVal.jarr [])]) := by rfl
example :
    json_loads "\x7b\"recommendations\":[\x7b\"id\":\"a\",\"reason\":\"b\"\x7d]\x7d" =
      some (JVal.jobj [("recommendations",
        JVal.jarr [JVal.jobj [("id", JVal.jstr "a"), ("reason", JVal.jstr "b")]])]) := by rfl
example : json_loads "1.50" = json_loads "1.5" := by rfl
example : json_loads "\"a\\u0041\"" = some (JVal.jstr "aA") := by rfl

example : pyStrip "  ab " = "ab" := by rfl
example : (recommend_clinic ⟨none, none⟩ reqAbc (genConst "x")).1.1 = 503 := by rfl
example : (recommend_clinic ⟨none, some "boom"⟩ reqAbc (genConst "x")).1.2 =
    jerror "AI model is not available. Error: boom" := by rfl
example : recommend_clinic readySt ⟨false, ""⟩ (genConst "x") =
    ((400, jerror "Invalid request: Content-Type must be application/json."), false) := by rfl
example : recommend_clinic readySt ⟨true, "\x7b"⟩ (genConst "x") =
    ((500, jerror genericErrorMsg), false) := by rfl
example : recommend_clinic readySt ⟨true, "[1, 2]"⟩ (genConst "x") =
    ((500, jerror genericErrorMsg), false) := by rfl
example : recommend_clinic readySt ⟨true, "\x7b\"symptoms\": \" ab \"\x7d"⟩ (genConst "x") =
    ((400, jerror "Symptoms must be provided as a non-empty string."), false) := by rfl
example : recommend_clinic readySt reqAbc (genConst "") =
    ((500, jerror "The AI model returned an empty response."), true) := by rfl
example : recommend_clinic readySt reqAbc (genConst "not json") =
    ((500, jerror "The AI model returned a malformed response."), true) := by rfl
example : recommend_clinic readySt reqAbc (genConst "\x7b\"foo\": []\x7d") =
    ((500, jerror "The AI model returned a malformed response."), true) := by rfl
example : recommend_clinic readySt reqAbc
    (genConst "\x7b\"recommendations\": [\x7b\x7d]\x7d") =
    ((200, JVal.jobj [("recommendations", JVal.jarr [JVal.jobj []])]), true) := by rfl
example : readiness_check readySt = (200, "OK") := by rfl
example : readiness_check ⟨none, some "err"⟩ = (500, "Initialization failed: err") := by rfl
example : readiness_check ⟨none, none⟩ = (503, "Model is not ready yet.") := by rfl

theorem step_model_mono {env : Option String} {a b : TState}
    (h : initialize_vertex_ai_step env a b) :
    ∀ m, a.g.model = some m → b.g.model = some m := by
  cases h <;> simp_all

theorem step_err_mono {env : Option String} {a b : TState}
    (h : initialize_vertex_ai_step env a b) :
    ∀ e, a.g.model_initialization_error = some e →
      b.g.model_initialization_error = some e := by
  cases h <;> simp_all

theorem step_ready_stays {env : Option String} {a b : TState}
    (h : initialize_vertex_ai_step env a b) :
    lstateOf a.g = .ready → lstateOf b.g = .ready := by
  cases h <;> simp_all [lstateOf]

theorem step_not_from_failed {env : Option String} {a b : TState}
    (h : initialize_vertex_ai_step env a b) {r : String}
    (hf : lstateOf a.g = .failed r) : False := by
  cases h <;> simp_all [lstateOf]

theorem json_loads_empty : json_loads "" = none := rfl

theorem recommend_eval (st : ServerState) (req : Request)
    (gen : String → GenerationConfig → GenOutcome) (m : String)
    (fields : List (String × JVal)) (s : String)
    (hm : st.model = some m) (hj : req.is_json = true)
    (hb : json_loads req.body = some (JVal.jobj fields))
    (hs : fields.lookup "symptoms" = some (JVal.jstr s))
    (hlen : 3 ≤ (pyStrip s).length) :
    recommend_clinic st req gen =
      (match gen (prompt s) generation_config with
       | .raises _ => ((500, jerror genericErrorMsg), true)
       | .ok text => (handle_model_response text, true)) := by
  have hlen' : ¬ (pyStrip s).length < 3 := by omega
  simp [recommend_clinic, hm, hj, hb, hs, hlen']

theorem hmr_200_iff (text : String) :
    (handle_model_response text).1 = 200 ↔
      ∃ rfields elems, json_loads text = some (JVal.jobj rfields) ∧
        rfields.lookup "recommendations" = some (JVal.jarr elems) := by
  by_cases ht : text = ""
  · subst ht
    simp [handle_model_response, json_loads_empty]
  · cases hjl : json_loads text with
    | none => simp [handle_model_response, ht, hjl]
    | some v =>
      cases v with
      | jnull => simp [handle_model_response, ht, hjl]
      | jbool b => simp [handle_model_response, ht, hjl]
      | jnum mm ee => simp [handle_model_response, ht, hjl]
      | jstr s =>
        simp [handle_model_response, ht, hjl]
        split <;> simp
      | jarr elems =>
        simp [handle_model_response, ht, hjl]
        split <;> simp
      | jobj fields =>
        cases hlk : fields.lookup "recommendations" with
        | none => simp [handle_model_response, ht, hjl, hlk]
        | some v2 =>
          cases v2 <;> simp [handle_model_response, ht, hjl, hlk]

theorem hmr_success (text : String) (rfields : List (String × JVal)) (elems : List JVal)
    (hjl : json_loads text = some (JVal.jobj rfields))
    (hlk : rfields.lookup "recommendations" = some (JVal.jarr elems)) :
    handle_model_response text = (200, JVal.jobj rfields) := by
  have ht : text ≠ "" := by
    intro h
    subst h
    rw [json_loads_empty] at hjl
    cases hjl
  simp [handle_model_response, ht, hjl, hlk]

theorem hmr_code (text : String) :
    (handle_model_response text).1 = 200 ∨ (handle_model_response text).1 = 500 := by
  by_cases ht : text = ""
  · simp [handle_model_response, ht]
  · cases hjl : json_loads text with
    | none => simp [handle_model_response, ht, hjl]
    | some v =>
      cases v with
      | jnull => simp [handle_model_response, ht, hjl]
      | jbool b => simp [handle_model_response, ht, hjl]
      | jnum mm ee => simp [handle_model_response, ht, hjl]
      | jstr s =>
        simp [handle_model_response, ht, hjl]
        split <;> simp
      | jarr elems =>
        simp [handle_model_response, ht, hjl]
        split <;> simp
      | jobj fields =>
        cases hlk : fields.lookup "recommendations" with
        | none => simp [handle_model_response, ht, hjl, hlk]
        | some v2 =>
          cases v2 <;> simp [handle_model_response, ht, hjl, hlk]

theorem recommend_ready_code (st : ServerState) (req : Request)
    (gen : String → GenerationConfig → GenOutcome) (m : String)
    (h : st.model = some m) :
    (recommend_clinic st req gen).1.1 = 200 ∨ (recommend_clinic st req gen).1.1 = 400 ∨
      (recommend_clinic st req gen).1.1 = 500 := by
  cases hb : req.is_json
  · simp [recommend_clinic, h, hb]
  · cases hjl : json_loads req.body with
    | none => simp [recommend_clinic, h, hb, hjl]
    | some v =>
      cases v with
      | jnull => simp [recommend_clinic, h, hb, hjl]
      | jbool b2 => simp [recommend_clinic, h, hb, hjl]
      | jnum mm ee => simp [recommend_clinic, h, hb, hjl]
      | jstr s2 => simp [recommend_clinic, h, hb, hjl]
      | jarr elems => simp [recommend_clinic, h, hb, hjl]
      | jobj fields =>
        cases hlk : fields.lookup "symptoms" with
        | none => simp [recommend_clinic, h, hb, hjl, hlk]
        | some v2 =>
          cases v2 with
          | jstr s =>
            by_cases hlen : (pyStrip s).length < 3
            · simp [recommend_clinic, h, hb, hjl, hlk, hlen]
            · cases hg : gen (prompt s) generation_config with
              | raises e => simp [recommend_clinic, h, hb, hjl, hlk, hlen, hg]
              | ok text =>
                have h2 := hmr_code text
                simp only [recommend_clinic, h, hb, hjl, hlk, hlen, hg]
                rcases h2 with h2 | h2 <;> simp [h2]
          | jnull => simp [recommend_clinic, h, hb, hjl, hlk]
          | jbool b2 => simp [recommend_clinic, h, hb, hjl, hlk]
          | jnum mm ee => simp [recommend_clinic, h, hb, hjl, hlk]
          | jarr elems => simp [recommend_clinic, h, hb, hjl, hlk]
          | jobj fs => simp [recommend_clinic, h, hb, hjl, hlk]

/-- C1: for every call to the recommend endpoint made while the lifecycle
state is not `Ready` (the model handle `model` is still `None`), the
service returns a 503 service-unavailable outcome and the ModelClient is
never invoked (the `gen` stub is not consulted). -/
theorem C1_not_ready_503 (st : ServerState) (req : Request)
    (gen : String → GenerationConfig → GenOutcome) (h : st.model = none) :
    (recommend_clinic st req gen).1.1 = 503 ∧ (recommend_clinic st req gen).2 = false := by
  simp [recommend_clinic, h]

theorem C1_not_ready_503_witness :
    (recommend_clinic ⟨none, none⟩ reqAbc (genConst "x")).1.1 = 503 ∧
      (recommend_clinic ⟨none, none⟩ reqAbc (genConst "x")).2 = false :=
  C1_not_ready_503 ⟨none, none⟩ reqAbc (genConst "x") rfl

/-- C2 (amended): along every execution of the initializer thread the
model handle, once set, is never unset, and the initialization error,
once set, is never cleared; the derived lifecycle state moves one-way
(`Ready` stays `Ready`, and a `Failed` state takes no further step at
all).  However — contrary to the original claim — the two variables CAN
both be set: a failure after the locked store (the success `print` at
app.py line 50 is inside the `try:`) records the error while the handle
stays set, and the derived state then remains `Ready`. -/
theorem C2_lifecycle_monotone (env : Option String) (a b : TState)
    (h : initReaches env a b) :
    (∀ m, a.g.model = some m → b.g.model = some m) ∧
    (∀ e, a.g.model_initialization_error = some e →
      b.g.model_initialization_error = some e) ∧
    (lstateOf a.g = .ready → lstateOf b.g = .ready) ∧
    (∀ r, lstateOf a.g = .failed r → b = a) := by
  induction h with
  | refl => exact ⟨fun _ hm => hm, fun _ he => he, fun hr => hr, fun _ _ => rfl⟩
  | tail h1 h2 ih =>
    refine ⟨?_, ?_, ?_, ?_⟩
    · intro m hm
      exact step_model_mono h2 m (ih.1 m hm)
    · intro e he
      exact step_err_mono h2 e (ih.2.1 e he)
    · intro hr
      exact step_ready_stays h2 (ih.2.2.1 hr)
    · intro r hf
      have hc := ih.2.2.2 r hf
      rw [hc] at h2
      exact (step_not_from_failed h2 hf).elim

theorem C2_lifecycle_monotone_witness :
    lstateOf (⟨some modelName, some "print raised"⟩ : ServerState) = LState.ready :=
  (C2_lifecycle_monotone (some "p") ⟨.stored, ⟨some modelName, none⟩⟩
      ⟨.done, ⟨some modelName, some "print raised"⟩⟩
      (Relation.ReflTransGen.single
        (initialize_vertex_ai_step.printFail "print raised"))).2.2.1 rfl

/-- C2 counterexample: the conjunct "the model handle and the
initialization error are never both set" is false: from the initial
state the trace (vertexai.init succeeds, the model loads, the handle is
stored, the success print raises) reaches a state with both globals
set. -/
theorem C2_both_set_cex :
    ¬ (∀ (env : Option String) (s : TState), initReaches env initialState s →
        ¬ (s.g.model.isSome ∧ s.g.model_initialization_error.isSome)) := by
  intro h
  exact h (some "proj") ⟨.done, ⟨some modelName, some "boom"⟩⟩
    (Relation.ReflTransGen.head (.initOk "proj" rfl)
      (Relation.ReflTransGen.head .loadOk
        (Relation.ReflTransGen.head .store
          (Relation.ReflTransGen.single (.printFail "boom"))))) ⟨rfl, rfl⟩

/-- C3: with the service ready and a JSON-object request body, a
`symptoms` entry that is missing, not a string, or a string of trimmed
length < 3 is rejected with 400 and no model call; a string of trimmed
length exactly 3 passes validation and the model call is attempted. -/
theorem C3_symptoms_validation (st : ServerState) (req : Request)
    (gen : String → GenerationConfig → GenOutcome) (m : String)
    (fields : List (String × JVal))
    (hm : st.model = some m) (hj : req.is_json = true)
    (hb : json_loads req.body = some (JVal.jobj fields)) :
    (fields.lookup "symptoms" = none →
      recommend_clinic st req gen =
        ((400, jerror "Symptoms must be provided as a non-empty string."), false)) ∧
    (∀ v, fields.lookup "symptoms" = some v → (∀ s, v ≠ JVal.jstr s) →
      recommend_clinic st req gen =
        ((400, jerror "Symptoms must be provided as a non-empty string."), false)) ∧
    (∀ s, fields.lookup "symptoms" = some (JVal.jstr s) → (pyStrip s).length < 3 →
      recommend_clinic st req gen =
        ((400, jerror "Symptoms must be provided as a non-empty string."), false)) ∧
    (∀ s, fields.lookup "symptoms" = some (JVal.jstr s) → (pyStrip s).length = 3 →
      (recommend_clinic st req gen).2 = true) := by
  refine ⟨?_, ?_, ?_, ?_⟩
  · intro hs
    simp [recommend_clinic, hm, hj, hb, hs]
  · intro v hs hv
    cases v with
    | jnull => simp [recommend_clinic, hm, hj, hb, hs]
    | jbool b => simp [recommend_clinic, hm, hj, hb, hs]
    | jnum mm ee => simp [recommend_clinic, hm, hj, hb, hs]
    | jstr s => exact absurd rfl (hv s)
    | jarr es => simp [recommend_clinic, hm, hj, hb, hs]
    | jobj fs => simp [recommend_clinic, hm, hj, hb, hs]
  · intro s hs hlen
    simp [recommend_clinic, hm, hj, hb, hs, hlen]
  · intro s hs hlen
    have hlen' : ¬ (pyStrip s).length < 3 := by omega
    simp only [recommend_clinic, hm, hj, hb, hs, hlen']
    cases gen (prompt s) generation_config <;> simp

theorem C3_symptoms_validation_witness :
    (recommend_clinic readySt ⟨true, "\x7b\"symptoms\": \"abc\"\x7d"⟩ (genConst "x")).2 = true :=
  (C3_symptoms_validation readySt ⟨true, "\x7b\"symptoms\": \"abc\"\x7d"⟩ (genConst "x")
    "gemini-1.5-flash-001" [("symptoms", JVal.jstr "abc")] rfl rfl rfl).2.2.2 "abc" rfl rfl

/-- C4 (amended): with the service ready, a request whose Content-Type is
not JSON is rejected 400 with a descriptive message, and a JSON object
body without a `symptoms` entry is rejected 400; but a body that fails
JSON parsing, or parses to a non-object, raises inside the handler and is
surfaced by the blanket `except Exception` as a generic 500 — not 400.
In every one of these cases no model call is attempted. -/
theorem C4_body_handling (st : ServerState) (req : Request)
    (gen : String → GenerationConfig → GenOutcome) (m : String)
    (hm : st.model = some m) :
    (req.is_json = false →
      recommend_clinic st req gen =
        ((400, jerror "Invalid request: Content-Type must be application/json."), false)) ∧
    (req.is_json = true → json_loads req.body = none →
      recommend_clinic st req gen = ((500, jerror genericErrorMsg), false)) ∧
    (req.is_json = true → ∀ v, json_loads req.body = some v →
      (∀ fields, v ≠ JVal.jobj fields) →
      recommend_clinic st req gen = ((500, jerror genericErrorMsg), false)) ∧
    (req.is_json = true → ∀ fields, json_loads req.body = some (JVal.jobj fields) →
      fields.lookup "symptoms" = none →
      recommend_clinic st req gen =
        ((400, jerror "Symptoms must be provided as a non-empty string."), false)) := by
  refine ⟨?_, ?_, ?_, ?_⟩
  · intro hj
    simp [recommend_clinic, hm, hj]
  · intro hj hb
    simp [recommend_clinic, hm, hj, hb]
  · intro hj v hb hv
    cases v with
    | jnull => simp [recommend_clinic, hm, hj, hb]
    | jbool b => simp [recommend_clinic, hm, hj, hb]
    | jnum mm ee => simp [recommend_clinic, hm, hj, hb]
    | jstr s => simp [recommend_clinic, hm, hj, hb]
    | jarr es => simp [recommend_clinic, hm, hj, hb]
    | jobj fs => exact absurd rfl (hv fs)
  · intro hj fields hb hs
    simp [recommend_clinic, hm, hj, hb, hs]

theorem C4_body_handling_witness :
    recommend_clinic readySt ⟨false, "\x7b\"symptoms\": \"abc\"\x7d"⟩ (genConst "x") =
      ((400, jerror "Invalid request: Content-Type must be application/json."), false) :=
  (C4_body_handling readySt ⟨false, "\x7b\"symptoms\": \"abc\"\x7d"⟩ (genConst "x")
    "gemini-1.5-flash-001" rfl).1 rfl

/-- C4 counterexample: a ready-state request with JSON Content-Type whose
body `"{"` is not parseable as JSON is answered with the generic 500 of
the blanket exception handler, not with the 400 the claim states (though
indeed without any model call). -/
theorem C4_unparseable_body_cex :
    (recommend_clinic readySt ⟨true, "\x7b"⟩ (genConst "x")).1.1 = 500 ∧
      ¬ (recommend_clinic readySt ⟨true, "\x7b"⟩ (genConst "x")).1.1 = 400 ∧
      (recommend_clinic readySt ⟨true, "\x7b"⟩ (genConst "x")).2 = false :=
  ⟨rfl, by decide, rfl⟩

/-- C5 (amended): the output-parsing stage only requires the model text
to parse as a JSON object carrying a `recommendations` entry whose value
is a list; the shape of the list's ELEMENTS is never inspected, so a 200
response may well contain recommendation elements lacking `id` or
`reason`.  A 200 outcome occurs exactly when the object/list requirement
is met; every violation of it yields a 500. -/
theorem C5_output_shape (st : ServerState) (req : Request)
    (gen : String → GenerationConfig → GenOutcome) (m : String)
    (fields : List (String × JVal)) (s text : String)
    (hm : st.model = some m) (hj : req.is_json = true)
    (hb : json_loads req.body = some (JVal.jobj fields))
    (hs : fields.lookup "symptoms" = some (JVal.jstr s))
    (hlen : 3 ≤ (pyStrip s).length)
    (hgen : gen (prompt s) generation_config = .ok text) :
    ((recommend_clinic st req gen).1.1 = 200 ↔
      ∃ rfields elems, json_loads text = some (JVal.jobj rfields) ∧
        rfields.lookup "recommendations" = some (JVal.jarr elems)) ∧
    (∀ rfields elems, json_loads text = some (JVal.jobj rfields) →
      rfields.lookup "recommendations" = some (JVal.jarr elems) →
      recommend_clinic st req gen = ((200, JVal.jobj rfields), true)) := by
  rw [recommend_eval st req gen m fields s hm hj hb hs hlen, hgen]
  constructor
  · simpa using hmr_200_iff text
  · intro rfields elems h1 h2
    simpa using hmr_success text rfields elems h1 h2

theorem C5_output_shape_witness :
    (recommend_clinic readySt reqAbc
        (genConst "\x7b\"recommendations\": [\x7b\x7d]\x7d")).1.1 = 200 :=
  ((C5_output_shape readySt reqAbc (genConst "\x7b\"recommendations\": [\x7b\x7d]\x7d")
      "gemini-1.5-flash-001" [("symptoms", JVal.jstr "headache and nausea")]
      "headache and nausea" "\x7b\"recommendations\": [\x7b\x7d]\x7d"
      rfl rfl rfl rfl (by decide) rfl).1).mpr
    ⟨[("recommendations", JVal.jarr [JVal.jobj []])], [JVal.jobj []], rfl, rfl⟩

/-- C5 counterexample: with a ready service and a valid request, a model
output whose single recommendation element is the empty object (so it has
neither `id` nor `reason`) is passed through with 200 — the element
shape is not validated, contradicting the claim that no 200 response
contains an element lacking `id` or `reason`. -/
theorem C5_element_shape_cex :
    recommend_clinic readySt reqAbc (genConst "\x7b\"recommendations\":[\x7b\x7d]\x7d") =
      ((200, JVal.jobj [("recommendations", JVal.jarr [JVal.jobj []])]), true) ∧
      List.lookup "id" ([] : List (String × JVal)) = none ∧
      List.lookup "reason" ([] : List (String × JVal)) = none :=
  ⟨rfl, rfl, rfl⟩

/-- C6: with the service ready and a valid request, a model output of
`"not json"`, of `{"foo": []}` (no `recommendations` entry), or of empty
text is answered with a 500 response in all three cases, the handler
returning normally (the runs below evaluate to ordinary responses). -/
theorem C6_malformed_output_500 :
    recommend_clinic readySt reqAbc (genConst "not json") =
      ((500, jerror "The AI model returned a malformed response."), true) ∧
    recommend_clinic readySt reqAbc (genConst "\x7b\"foo\": []\x7d") =
      ((500, jerror "The AI model returned a malformed response."), true) ∧
    recommend_clinic readySt reqAbc (genConst "") =
      ((500, jerror "The AI model returned an empty response."), true) :=
  ⟨rfl, rfl, rfl⟩

/-- C7: the readiness probe is a pure function of the lifecycle state the
globals encode: `Ready ↦ (200, OK)`, `Uninitialized/Initializing`
(both `None`, i.e. `notReady`) `↦ 503`, `Failed(reason) ↦ 500` including
the reason.  It reads the globals and mutates nothing (its embedding
returns only a response), so states with equal lifecycle state get
identical results — in particular repeated calls with no intervening
state change. -/
theorem C7_readiness_pure (st : ServerState) :
    (lstateOf st = .ready → readiness_check st = (200, "OK")) ∧
    (lstateOf st = .notReady → readiness_check st = (503, "Model is not ready yet.")) ∧
    (∀ r, lstateOf st = .failed r →
      readiness_check st = (500, "Initialization failed: " ++ r)) ∧
    (∀ st', lstateOf st = lstateOf st' → readiness_check st = readiness_check st') := by
  obtain ⟨mo, er⟩ := st
  refine ⟨?_, ?_, ?_, ?_⟩
  · intro h
    cases mo <;> cases er <;> simp_all [lstateOf, readiness_check]
  · intro h
    cases mo <;> cases er <;> simp_all [lstateOf, readiness_check]
  · intro r h
    cases mo <;> cases er <;> simp_all [lstateOf, readiness_check]
  · intro st' h
    obtain ⟨mo', er'⟩ := st'
    cases mo <;> cases er <;> cases mo' <;> cases er' <;>
      simp_all [lstateOf, readiness_check]

theorem C7_readiness_pure_witness :
    readiness_check readySt = (200, "OK") :=
  (C7_readiness_pure readySt).1 rfl

/-- C8: when the model returns text parsing to a JSON object with a
`recommendations` list, the service answers 200 with exactly the parsed
structure as body — a pass-through: the response's JSON value equals the
value parsed from the model text. -/
theorem C8_passthrough (st : ServerState) (req : Request)
    (gen : String → GenerationConfig → GenOutcome) (m : String)
    (fields : List (String × JVal)) (s text : String)
    (rfields : List (String × JVal)) (elems : List JVal)
    (hm : st.model = some m) (hj : req.is_json = true)
    (hb : json_loads req.body = some (JVal.jobj fields))
    (hs : fields.lookup "symptoms" = some (JVal.jstr s))
    (hlen : 3 ≤ (pyStrip s).length)
    (hgen : gen (prompt s) generation_config = .ok text)
    (hparse : json_loads text = some (JVal.jobj rfields))
    (hrec : rfields.lookup "recommendations" = some (JVal.jarr elems)) :
    recommend_clinic st req gen = ((200, JVal.jobj rfields), true) := by
  rw [recommend_eval st req gen m fields s hm hj hb hs hlen, hgen]
  simpa using hmr_success text rfields elems hparse hrec

theorem C8_passthrough_witness :
    recommend_clinic readySt reqAbc (genConst specLiteral) =
      ((200, JVal.jobj [("recommendations", JVal.jarr [JVal.jobj
        [("id", JVal.jstr "general-medicine"),
         ("reason", JVal.jstr "Vague fatigue warrants a general checkup first.")]])]), true) :=
  C8_passthrough readySt reqAbc (genConst specLiteral) "gemini-1.5-flash-001"
    [("symptoms", JVal.jstr "headache and nausea")] "headache and nausea" specLiteral
    [("recommendations", JVal.jarr [JVal.jobj
      [("id", JVal.jstr "general-medicine"),
       ("reason", JVal.jstr "Vague fatigue warrants a general checkup first.")]])]
    [JVal.jobj [("id", JVal.jstr "general-medicine"),
      ("reason", JVal.jstr "Vague fatigue warrants a general checkup first.")]]
    rfl rfl rfl rfl (by decide) rfl rfl rfl

/-- C9 (amended): every post-validation failure of the model stage is
surfaced as 500 — a raised invocation error via the blanket handler, an
empty response, and an output-contract violation (unparseable text) —
but the client-visible payloads of the classes are NOT identical: the
empty-response, malformed-response and generic messages are three
pairwise distinct strings in the response body, so the distinction is
visible to the client, not confined to internal logs. -/
theorem C9_error_payloads (st : ServerState) (req : Request)
    (gen : String → GenerationConfig → GenOutcome) (m : String)
    (fields : List (String × JVal)) (s : String)
    (hm : st.model = some m) (hj : req.is_json = true)
    (hb : json_loads req.body = some (JVal.jobj fields))
    (hs : fields.lookup "symptoms" = some (JVal.jstr s))
    (hlen : 3 ≤ (pyStrip s).length) :
    (∀ e, gen (prompt s) generation_config = .raises e →
      recommend_clinic st req gen = ((500, jerror genericErrorMsg), true)) ∧
    (gen (prompt s) generation_config = .ok "" →
      recommend_clinic st req gen =
        ((500, jerror "The AI model returned an empty response."), true)) ∧
    (∀ text, gen (prompt s) generation_config = .ok text → text ≠ "" →
      json_loads text = none →
      recommend_clinic st req gen =
        ((500, jerror "The AI model returned a malformed response."), true)) ∧
    jerror "The AI model returned an empty response." ≠
      jerror "The AI model returned a malformed response." ∧
    jerror "The AI model returned an empty response." ≠ jerror genericErrorMsg ∧
    jerror "The AI model returned a malformed response." ≠ jerror genericErrorMsg := by
  refine ⟨?_, ?_, ?_, ?_, ?_, ?_⟩
  · intro e hg
    rw [recommend_eval st req gen m fields s hm hj hb hs hlen, hg]
  · intro hg
    rw [recommend_eval st req gen m fields s hm hj hb hs hlen, hg]
    simp [handle_model_response]
  · intro text hg ht hjl
    rw [recommend_eval st req gen m fields s hm hj hb hs hlen, hg]
    simp [handle_model_response, ht, hjl]
  · simp [jerror, genericErrorMsg]
  · simp [jerror, genericErrorMsg]
  · simp [jerror, genericErrorMsg]

theorem C9_error_payloads_witness :
    recommend_clinic readySt reqAbc (genConst "") =
      ((500, jerror "The AI model returned an empty response."), true) :=
  (C9_error_payloads readySt reqAbc (genConst "") "gemini-1.5-flash-001"
    [("symptoms", JVal.jstr "headache and nausea")] "headache and nausea"
    rfl rfl rfl rfl (by decide)).2.1 rfl

/-- C9 counterexample: the client-visible payloads of the two failure
classes are not identical: an empty model response and an unparseable
model response produce different JSON error bodies. -/
theorem C9_identical_payloads_cex :
    recommend_clinic readySt reqAbc (genConst "") =
      ((500, jerror "The AI model returned an empty response."), true) ∧
    recommend_clinic readySt reqAbc (genConst "not json") =
      ((500, jerror "The AI model returned a malformed response."), true) ∧
    (recommend_clinic readySt reqAbc (genConst "")).1.2 ≠
      (recommend_clinic readySt reqAbc (genConst "not json")).1.2 := by
  refine ⟨rfl, rfl, ?_⟩
  intro h
  have h1 : (recommend_clinic readySt reqAbc (genConst "")).1.2 =
      jerror "The AI model returned an empty response." := rfl
  have h2 : (recommend_clinic readySt reqAbc (genConst "not json")).1.2 =
      jerror "The AI model returned a malformed response." := rfl
  rw [h1, h2] at h
  simp [jerror] at h

/-- C10: the readiness probe (and the recommend gate) consult the model
handle FIRST: whenever the handle is set the probe returns 200 and both
endpoints behave exactly as they would with no recorded error — even if
an initialization error was also recorded (reachable when an exception
occurs after the handle is stored) — and the recommend gate proceeds
(no 503 outcome).  The error value thus only matters while the handle is
still `None`. -/
theorem C10_model_checked_first (st : ServerState) (m : String)
    (h : st.model = some m) :
    readiness_check st = (200, "OK") ∧
    readiness_check st = readiness_check ⟨some m, none⟩ ∧
    (∀ req gen, recommend_clinic st req gen = recommend_clinic ⟨some m, none⟩ req gen) ∧
    (∀ req gen, (recommend_clinic st req gen).1.1 ≠ 503) := by
  refine ⟨by simp [readiness_check, h], by simp [readiness_check, h], ?_, ?_⟩
  · intro req gen
    simp [recommend_clinic, h]
  · intro req gen
    rcases recommend_ready_code st req gen m h with hc | hc | hc <;> omega

theorem C10_model_checked_first_witness :
    readiness_check ⟨some modelName, some "boom"⟩ = (200, "OK") :=
  (C10_model_checked_first ⟨some modelName, some "boom"⟩ modelName rfl).1
